import Mathlib

/-!
Verification development for the Zabbix preprocessing worker
(`src/zabbix_server/preprocessor/pp_worker.c`).

The worker code is straight-line dispatch over a tagged task variant plus a
pop / execute / push-finished loop, so we embed it as functions producing an
explicit event trace (`List WEvent`).  Opaque collaborator objects
(preprocessing step lists, zbx_variant values, timespecs, caches, output
slots) are represented by identifiers: the worker never inspects them, it
only forwards pointers, so only their identity matters.

The task payload structures mirror `zbx_pp_task_test_t`,
`zbx_pp_task_value_t`, `zbx_pp_task_dependent_t` and
`zbx_pp_task_sequence_t` as declared in pp_task.h and used by pp_worker.c:
the fields below are exactly the fields pp_worker.c reads.
-/

/-- Identifier of a `zbx_pp_item_preproc_t` (preprocessing step list). -/
abbrev ZbxPreproc := Nat

/-- Identifier of a `zbx_variant_t` input value. -/
abbrev ZbxValue := Nat

/-- A `zbx_timespec_t` timestamp. -/
abbrev ZbxTs := Nat

/-- Identity of a `zbx_pp_cache_t` object (the pointer may be NULL,
modelled as `Option PpCache`). -/
abbrev PpCache := Nat

/-- Identity of a `zbx_pp_result_t` output slot (`&d->result`). -/
abbrev ResultSlot := Nat

/-- Identity of the per-step output pair `&d->results, &d->results_num`
of a test task (both are passed together, or both are NULL). -/
abbrev StepResultsSlot := Nat

/-- Payload of a TEST task (`zbx_pp_task_test_t`): step list, input value,
timestamp, result slot and the per-step results slot.  There is no cache
field. -/
structure PpTaskTestData where
  preproc : ZbxPreproc
  value : ZbxValue
  ts : ZbxTs
  result : ResultSlot
  results : StepResultsSlot
deriving DecidableEq, Repr

/-- Payload shared by VALUE and VALUE_SEQ tasks (`zbx_pp_task_value_t`):
step list, optional cache pointer, input value, timestamp, result slot. -/
structure PpTaskValueData where
  preproc : ZbxPreproc
  cache : Option PpCache
  value : ZbxValue
  ts : ZbxTs
  result : ResultSlot
deriving DecidableEq, Repr

/-- A preprocessing task (`zbx_pp_task_t`): an item id plus a payload tagged
by the task type.  A DEPENDENT task holds a reference to its primary task
(`d->primary`) and its own cache pointer; a SEQUENCE task owns the internal
queue `d_seq->tasks` of sub-tasks. -/
inductive PpTask : Type where
  | test (itemid : Nat) (d : PpTaskTestData) : PpTask
  | value (itemid : Nat) (d : PpTaskValueData) : PpTask
  | valueSeq (itemid : Nat) (d : PpTaskValueData) : PpTask
  | dependent (itemid : Nat) (primary : PpTask) (cache : Option PpCache) : PpTask
  | sequence (itemid : Nat) (tasks : List PpTask) : PpTask

/-- The argument tuple of a `pp_execute` invocation, as assembled by
pp_worker.c: step list, cache pointer (NULL = `none`), input value,
timestamp, result slot, and the per-step results outputs (NULL = `none`). -/
structure ExecCall where
  preproc : ZbxPreproc
  cache : Option PpCache
  value : ZbxValue
  ts : ZbxTs
  result : ResultSlot
  stepResults : Option StepResultsSlot
deriving DecidableEq, Repr

/-- Outcome of a `pp_execute` run: the pipeline either succeeded or wrote an
error into the result slot.  pp_worker.c never branches on it; it is threaded
through as an oracle so that properties hold for failing pipelines too. -/
inductive ExecOutcome : Type where
  | succeed
  | fail
deriving DecidableEq, Repr

/-- Busy/idle states reported to the timekeeper
(`ZBX_PROCESS_STATE_BUSY` / `ZBX_PROCESS_STATE_IDLE`). -/
inductive ZbxProcState : Type where
  | busy
  | idle
deriving DecidableEq, Repr

/-- Observable events of a worker thread, in program order. -/
inductive WEvent : Type where
  /-- `zbx_timekeeper_update(worker->timekeeper, slot, state)` -/
  | timekeeper (slot : Nat) (state : ZbxProcState) : WEvent
  /-- a `pp_execute(...)` call together with its outcome -/
  | exec (call : ExecCall) (outcome : ExecOutcome) : WEvent
  /-- reading task data through a cast to the wrong payload type
  (undefined behaviour in the C source) -/
  | undefCast : WEvent
  /-- the `THIS_SHOULD_NEVER_HAPPEN` branch was taken -/
  | shouldNeverHappen : WEvent
  /-- `pp_task_queue_push_finished(queue, t)` -/
  | pushFinished (t : PpTask) : WEvent
  /-- `zabbix_log(LOG_LEVEL_WARNING, "[%d] %s", worker->id, error)` -/
  | logWarning (workerId : Nat) (msg : String) : WEvent
  /-- `zbx_free(error)` -/
  | freeError : WEvent
  /-- `worker->stop = 1` -/
  | setStopFlag : WEvent
  /-- `pp_task_queue_deregister_worker(queue)` -/
  | deregisterWorker : WEvent

/-- `(zbx_pp_task_value_t *)PP_TASK_DATA(task)`: the cast succeeds exactly
for VALUE and VALUE_SEQ tasks, which share the `zbx_pp_task_value_t`
payload; on any other task the C cast reads the wrong payload type. -/
def PP_TASK_DATA_value : PpTask → Option PpTaskValueData
  | .value _ d => some d
  | .valueSeq _ d => some d
  | _ => none

/-- `pp_task_process_test`: `pp_execute(ctx, d->preproc, NULL, &d->value,
d->ts, &d->result, &d->results, &d->results_num)`. -/
def pp_task_process_test (ex : ExecCall → ExecOutcome) : PpTask → List WEvent
  | .test _ d =>
      let c : ExecCall := ⟨d.preproc, none, d.value, d.ts, d.result, some d.results⟩
      [.exec c (ex c)]
  | _ => [.undefCast]

/-- `pp_task_process_value`: `pp_execute(ctx, d->preproc, d->cache,
&d->value, d->ts, &d->result, NULL, NULL)`.  The same function serves VALUE
and VALUE_SEQ tasks. -/
def pp_task_process_value (ex : ExecCall → ExecOutcome) (task : PpTask) : List WEvent :=
  match PP_TASK_DATA_value task with
  | some d =>
      let c : ExecCall := ⟨d.preproc, d.cache, d.value, d.ts, d.result, none⟩
      [.exec c (ex c)]
  | none => [.undefCast]

/-- `pp_task_process_dependent`: reads the primary's value payload
(`d_first = PP_TASK_DATA(d->primary)`) and calls `pp_execute(ctx,
d_first->preproc, d->cache, &d_first->value, d_first->ts, &d_first->result,
NULL, NULL)` — the primary's step list, input value, timestamp and result
slot with the dependent task's own cache pointer. -/
def pp_task_process_dependent (ex : ExecCall → ExecOutcome) : PpTask → List WEvent
  | .dependent _ primary cache =>
      match PP_TASK_DATA_value primary with
      | some dFirst =>
          let c : ExecCall := ⟨dFirst.preproc, cache, dFirst.value, dFirst.ts, dFirst.result, none⟩
          [.exec c (ex c)]
      | none => [.undefCast]
  | _ => [.undefCast]

/-- `pp_task_process_sequence`: peek the head of the internal sub-task queue
(`zbx_list_peek(&d_seq->tasks, &task)`); if the queue is empty the peek
fails and nothing is done.  Otherwise dispatch the head by its type:
VALUE / VALUE_SEQ via `pp_task_process_value`, DEPENDENT via
`pp_task_process_dependent`, anything else hits `THIS_SHOULD_NEVER_HAPPEN`. -/
def pp_task_process_sequence (ex : ExecCall → ExecOutcome) : PpTask → List WEvent
  | .sequence _ tasks =>
      match tasks with
      | [] => []
      | task :: _ =>
          match task with
          | .value _ _ => pp_task_process_value ex task
          | .valueSeq _ _ => pp_task_process_value ex task
          | .dependent _ _ _ => pp_task_process_dependent ex task
          | _ => [.shouldNeverHappen]
  | _ => [.undefCast]

/-- The `switch (in->type)` dispatch in `pp_worker_entry`. -/
def dispatchTask (ex : ExecCall → ExecOutcome) (task : PpTask) : List WEvent :=
  match task with
  | .test _ _ => pp_task_process_test ex task
  | .value _ _ => pp_task_process_value ex task
  | .valueSeq _ _ => pp_task_process_value ex task
  | .dependent _ _ _ => pp_task_process_dependent ex task
  | .sequence _ _ => pp_task_process_sequence ex task

/-- One iteration of the worker loop for a task returned by
`pp_task_queue_pop_new`: mark busy on timekeeper slot `id - 1`, dispatch by
task type, mark idle, then `pp_task_queue_push_finished(queue, in)` with the
very task that was popped. -/
def pp_worker_process_task (id : Nat) (ex : ExecCall → ExecOutcome) (task : PpTask) :
    List WEvent :=
  .timekeeper (id - 1) .busy ::
    (dispatchTask ex task ++ [.timekeeper (id - 1) .idle, .pushFinished task])

/-- One scheduling observation of the queue from the worker's point of view:
either `pp_task_queue_pop_new` returned a task, or it returned NULL and the
subsequent `pp_task_queue_wait` either succeeded or failed with an error
message. -/
inductive QueueStep : Type where
  | popTask (t : PpTask) : QueueStep
  | waitOk : QueueStep
  | waitFail (msg : String) : QueueStep

/-- The `while (0 == worker->stop)` loop of `pp_worker_entry`, driven by a
schedule of queue observations.  On a wait failure the worker logs a
warning, frees the error message and sets its own stop flag, so the loop
exits and the remaining schedule is never consumed. -/
def pp_worker_loop (id : Nat) (ex : ExecCall → ExecOutcome) :
    List QueueStep → List WEvent
  | [] => []
  | .popTask t :: rest => pp_worker_process_task id ex t ++ pp_worker_loop id ex rest
  | .waitOk :: rest => pp_worker_loop id ex rest
  | .waitFail msg :: _ => [.logWarning id msg, .freeError, .setStopFlag]

/-- `pp_worker_entry` after registration: run the loop, then
`pp_task_queue_deregister_worker(queue)`. -/
def pp_worker_entry (id : Nat) (ex : ExecCall → ExecOutcome) (steps : List QueueStep) :
    List WEvent :=
  pp_worker_loop id ex steps ++ [.deregisterWorker]

/-- `SUCCEED` return code. -/
def SUCCEED : Int := 0

/-- `FAIL` return code. -/
def FAIL : Int := -1

/-- `PP_WORKER_INIT_THREAD` flag bit. -/
def PP_WORKER_INIT_THREAD : Nat := 1

/-- The fields of `zbx_pp_worker_t` that `pp_worker_init` and
`pp_worker_stop` touch. -/
structure PpWorker where
  id : Nat
  queue : Nat
  timekeeper : Nat
  stop : Bool
  init_flags : Nat
deriving DecidableEq, Repr

/-- `pp_worker_stop`: set the stop flag, but only when the worker thread was
started (`init_flags & PP_WORKER_INIT_THREAD` set). -/
def pp_worker_stop (w : PpWorker) : PpWorker :=
  if w.init_flags &&& PP_WORKER_INIT_THREAD ≠ 0 then
    ⟨w.id, w.queue, w.timekeeper, true, w.init_flags⟩
  else
    w

/-- Result of `pp_worker_init`: the updated worker, the returned `int`, the
`*error` output, and whether `pp_worker_stop` was invoked on the failure
path. -/
structure PpWorkerInitResult where
  worker : PpWorker
  ret : Int
  error : Option String
  stopCalled : Bool
deriving DecidableEq, Repr

/-- `pp_worker_init`: store id/queue/timekeeper, call `pthread_create`
(whose return value `createErr` and the `zbx_strerror` table are oracles).
On failure (`createErr ≠ 0`) set `*error = "cannot create thread: ..."`,
skip setting `PP_WORKER_INIT_THREAD`, call `pp_worker_stop` (because
`ret == FAIL`), and return `err` — the pthread error code itself, which is
also what is returned on success, where it is 0. -/
def pp_worker_init (w : PpWorker) (id : Nat) (queue : Nat) (timekeeper : Nat)
    (createErr : Nat) (strerror : Nat → String) : PpWorkerInitResult :=
  let w1 : PpWorker := ⟨id, queue, timekeeper, w.stop, w.init_flags⟩
  if createErr ≠ 0 then
    { worker := pp_worker_stop w1
      ret := (createErr : Int)
      error := some ("cannot create thread: " ++ strerror createErr)
      stopCalled := true }
  else
    { worker := ⟨w1.id, w1.queue, w1.timekeeper, w1.stop, w1.init_flags ||| PP_WORKER_INIT_THREAD⟩
      ret := (createErr : Int)
      error := none
      stopCalled := false }

/-- Observation helper: is this event a `pp_execute` call? -/
def isExec : WEvent → Bool
  | .exec _ _ => true
  | _ => false

/-- Observation helper: is this event a push to the finished lane? -/
def isPushFinished : WEvent → Bool
  | .pushFinished _ => true
  | _ => false

/-- Observation helper: is this event a timekeeper update? -/
def isTimekeeper : WEvent → Bool
  | .timekeeper _ _ => true
  | _ => false

/-- Observation helper: is this event the should-never-happen assertion? -/
def isAssert : WEvent → Bool
  | .shouldNeverHappen => true
  | _ => false

/-- Collect the argument tuples of the `pp_execute` calls in a trace. -/
def execCalls : List WEvent → List ExecCall
  | [] => []
  | .exec c _ :: rest => c :: execCalls rest
  | _ :: rest => execCalls rest

/-- Can a task type appear at the head of a sequence's internal queue
without hitting the should-never-happen branch? -/
def seqDispatchable : PpTask → Bool
  | .value _ _ => true
  | .valueSeq _ _ => true
  | .dependent _ _ _ => true
  | _ => false

/-- The tasks a worker actually pops from a schedule: everything up to the
first wait failure (after which the worker stops and pops nothing more). -/
def poppedTasks : List QueueStep → List PpTask
  | [] => []
  | .popTask t :: rest => t :: poppedTasks rest
  | .waitOk :: rest => poppedTasks rest
  | .waitFail _ :: _ => []

/-- A concrete execution oracle where every pipeline run fails, used by
witnesses to exercise the error path. -/
def exAllFail : ExecCall → ExecOutcome := fun _ => .fail

/-- A concrete execution oracle where every pipeline run succeeds. -/
def exAllOk : ExecCall → ExecOutcome := fun _ => .succeed

/-- Events a task dispatch can emit: `pp_execute` calls, the invalid-cast
marker, or the should-never-happen assertion. -/
def isDispatchEvent : WEvent → Bool
  | .exec _ _ => true
  | .undefCast => true
  | .shouldNeverHappen => true
  | _ => false

lemma dispatchTask_all_dispatchEvents (ex : ExecCall → ExecOutcome) (t : PpTask) :
    ∀ e ∈ dispatchTask ex t, isDispatchEvent e = true := by
  cases t with
  | test i d =>
      simp [dispatchTask, pp_task_process_test, isDispatchEvent]
  | value i d =>
      simp [dispatchTask, pp_task_process_value, PP_TASK_DATA_value, isDispatchEvent]
  | valueSeq i d =>
      simp [dispatchTask, pp_task_process_value, PP_TASK_DATA_value, isDispatchEvent]
  | dependent i p c =>
      cases hp : PP_TASK_DATA_value p <;>
        simp [dispatchTask, pp_task_process_dependent, hp, isDispatchEvent]
  | sequence i ts =>
      cases ts with
      | nil => simp [dispatchTask, pp_task_process_sequence]
      | cons h rest =>
          cases h with
          | test j d =>
              simp [dispatchTask, pp_task_process_sequence, isDispatchEvent]
          | value j d =>
              simp [dispatchTask, pp_task_process_sequence, pp_task_process_value,
                PP_TASK_DATA_value, isDispatchEvent]
          | valueSeq j d =>
              simp [dispatchTask, pp_task_process_sequence, pp_task_process_value,
                PP_TASK_DATA_value, isDispatchEvent]
          | dependent j p c =>
              cases hp : PP_TASK_DATA_value p <;>
                simp [dispatchTask, pp_task_process_sequence, pp_task_process_dependent, hp,
                  isDispatchEvent]
          | sequence j ts2 =>
              simp [dispatchTask, pp_task_process_sequence, isDispatchEvent]

lemma dispatchTask_filter_isTimekeeper (ex : ExecCall → ExecOutcome) (t : PpTask) :
    (dispatchTask ex t).filter isTimekeeper = [] := by
  rw [List.filter_eq_nil_iff]
  intro e he
  have h := dispatchTask_all_dispatchEvents ex t e he
  cases e <;> simp_all [isDispatchEvent, isTimekeeper]

lemma dispatchTask_filter_isPushFinished (ex : ExecCall → ExecOutcome) (t : PpTask) :
    (dispatchTask ex t).filter isPushFinished = [] := by
  rw [List.filter_eq_nil_iff]
  intro e he
  have h := dispatchTask_all_dispatchEvents ex t e he
  cases e <;> simp_all [isDispatchEvent, isPushFinished]

lemma process_task_filter_isPushFinished (id : Nat) (ex : ExecCall → ExecOutcome) (t : PpTask) :
    (pp_worker_process_task id ex t).filter isPushFinished = [WEvent.pushFinished t] := by
  simp [pp_worker_process_task, List.filter_append, dispatchTask_filter_isPushFinished,
    isPushFinished]

/-- **C1.** For every DEPENDENT task dispatched by a worker, `pp_execute` is
invoked with the primary task's step list, the primary task's input value and
the primary task's timestamp (writing to the primary's result slot), together
with the dependent task's own cache pointer; and the dispatch is independent
of the dependent task's own item id, which therefore never feeds the step
executor. -/
theorem dependent_task_runs_primary_pipeline (ex : ExecCall → ExecOutcome) (i i' : Nat)
    (primary : PpTask) (cache : Option PpCache) (dFirst : PpTaskValueData)
    (h : PP_TASK_DATA_value primary = some dFirst) :
    dispatchTask ex (.dependent i primary cache)
        = [.exec ⟨dFirst.preproc, cache, dFirst.value, dFirst.ts, dFirst.result, none⟩
            (ex ⟨dFirst.preproc, cache, dFirst.value, dFirst.ts, dFirst.result, none⟩)]
      ∧ dispatchTask ex (.dependent i primary cache)
          = dispatchTask ex (.dependent i' primary cache) := by
  constructor <;> simp [dispatchTask, pp_task_process_dependent, h]

/-- Witness for C1: a concrete dependent task for item 8 whose primary is a
VALUE task for item 7; the executed call carries the primary's step list 11,
input 21, timestamp 31 and result slot 41, but the dependent's cache 5. -/
theorem dependent_task_runs_primary_pipeline_witness :
    dispatchTask exAllFail
        (.dependent 8 (.value 7 ⟨11, some 3, 21, 31, 41⟩) (some 5))
        = [.exec ⟨11, some 5, 21, 31, 41, none⟩ (exAllFail ⟨11, some 5, 21, 31, 41, none⟩)] :=
  (dependent_task_runs_primary_pipeline exAllFail 8 9 (.value 7 ⟨11, some 3, 21, 31, 41⟩)
    (some 5) ⟨11, some 3, 21, 31, 41⟩ rfl).1

/-- **C3.** Worker dispatch is driven solely by the task's type tag: TEST is
executed with its per-step results outputs, VALUE and VALUE_SEQ take the
identical code path (`pp_task_process_value`) with the task's cache pointer,
DEPENDENT runs the primary's steps and input, and a SEQUENCE dispatches
exactly as its head sub-task would. -/
theorem worker_dispatch_by_type (ex : ExecCall → ExecOutcome) (iT : Nat) (dT : PpTaskTestData)
    (iV : Nat) (dV : PpTaskValueData) (iD : Nat) (p : PpTask) (c : Option PpCache)
    (dF : PpTaskValueData) (iS : Nat) (s : PpTask) (rest : List PpTask)
    (hp : PP_TASK_DATA_value p = some dF) (hs : seqDispatchable s = true) :
    dispatchTask ex (.test iT dT)
        = [.exec ⟨dT.preproc, none, dT.value, dT.ts, dT.result, some dT.results⟩
            (ex ⟨dT.preproc, none, dT.value, dT.ts, dT.result, some dT.results⟩)]
      ∧ dispatchTask ex (.value iV dV) = dispatchTask ex (.valueSeq iV dV)
      ∧ dispatchTask ex (.value iV dV)
          = [.exec ⟨dV.preproc, dV.cache, dV.value, dV.ts, dV.result, none⟩
              (ex ⟨dV.preproc, dV.cache, dV.value, dV.ts, dV.result, none⟩)]
      ∧ dispatchTask ex (.dependent iD p c)
          = [.exec ⟨dF.preproc, c, dF.value, dF.ts, dF.result, none⟩
              (ex ⟨dF.preproc, c, dF.value, dF.ts, dF.result, none⟩)]
      ∧ dispatchTask ex (.sequence iS (s :: rest)) = dispatchTask ex s := by
  refine ⟨?_, ?_, ?_, ?_, ?_⟩
  · simp [dispatchTask, pp_task_process_test]
  · simp [dispatchTask, pp_task_process_value, PP_TASK_DATA_value]
  · simp [dispatchTask, pp_task_process_value, PP_TASK_DATA_value]
  · simp [dispatchTask, pp_task_process_dependent, hp]
  · cases s <;> simp_all [dispatchTask, pp_task_process_sequence, seqDispatchable]

/-- Witness for C3 at concrete tasks: a TEST task, a VALUE/VALUE_SEQ payload,
a DEPENDENT task with a VALUE primary, and a sequence headed by a VALUE_SEQ
sub-task. -/
theorem worker_dispatch_by_type_witness :
    dispatchTask exAllOk (.test 1 ⟨10, 20, 30, 40, 50⟩)
        = [.exec ⟨10, none, 20, 30, 40, some 50⟩ (exAllOk ⟨10, none, 20, 30, 40, some 50⟩)]
      ∧ dispatchTask exAllOk (.value 2 ⟨11, some 6, 21, 31, 41⟩)
          = dispatchTask exAllOk (.valueSeq 2 ⟨11, some 6, 21, 31, 41⟩)
      ∧ dispatchTask exAllOk (.value 2 ⟨11, some 6, 21, 31, 41⟩)
          = [.exec ⟨11, some 6, 21, 31, 41, none⟩ (exAllOk ⟨11, some 6, 21, 31, 41, none⟩)]
      ∧ dispatchTask exAllOk (.dependent 3 (.valueSeq 4 ⟨12, none, 22, 32, 42⟩) (some 7))
          = [.exec ⟨12, some 7, 22, 32, 42, none⟩ (exAllOk ⟨12, some 7, 22, 32, 42, none⟩)]
      ∧ dispatchTask exAllOk
            (.sequence 5 [.valueSeq 5 ⟨13, some 8, 23, 33, 43⟩, .valueSeq 5 ⟨14, none, 24, 34, 44⟩])
          = dispatchTask exAllOk (.valueSeq 5 ⟨13, some 8, 23, 33, 43⟩) :=
  worker_dispatch_by_type exAllOk 1 ⟨10, 20, 30, 40, 50⟩ 2 ⟨11, some 6, 21, 31, 41⟩ 3
    (.valueSeq 4 ⟨12, none, 22, 32, 42⟩) (some 7) ⟨12, none, 22, 32, 42⟩ 5
    (.valueSeq 5 ⟨13, some 8, 23, 33, 43⟩) [.valueSeq 5 ⟨14, none, 24, 34, 44⟩] rfl rfl

/-- **C7.** A TEST task is executed with a NULL cache pointer and with its
per-step results outputs supplied, while VALUE, VALUE_SEQ and DEPENDENT
executions pass NULL for the per-step results outputs. -/
theorem test_task_step_results_value_tasks_none (ex : ExecCall → ExecOutcome) (iT : Nat)
    (dT : PpTaskTestData) (iV : Nat) (dV : PpTaskValueData) (iQ : Nat) (dQ : PpTaskValueData)
    (iD : Nat) (p : PpTask) (c : Option PpCache) (dF : PpTaskValueData)
    (hp : PP_TASK_DATA_value p = some dF) :
    (execCalls (dispatchTask ex (.test iT dT))).map ExecCall.cache = [none]
      ∧ (execCalls (dispatchTask ex (.test iT dT))).map ExecCall.stepResults = [some dT.results]
      ∧ (execCalls (dispatchTask ex (.value iV dV))).map ExecCall.stepResults = [none]
      ∧ (execCalls (dispatchTask ex (.valueSeq iQ dQ))).map ExecCall.stepResults = [none]
      ∧ (execCalls (dispatchTask ex (.dependent iD p c))).map ExecCall.stepResults = [none] := by
  refine ⟨?_, ?_, ?_, ?_, ?_⟩
  · simp [dispatchTask, pp_task_process_test, execCalls]
  · simp [dispatchTask, pp_task_process_test, execCalls]
  · simp [dispatchTask, pp_task_process_value, PP_TASK_DATA_value, execCalls]
  · simp [dispatchTask, pp_task_process_value, PP_TASK_DATA_value, execCalls]
  · simp [dispatchTask, pp_task_process_dependent, hp, execCalls]

/-- Witness for C7 at concrete tasks: the TEST call carries no cache and the
per-step slot 50; the VALUE, VALUE_SEQ and DEPENDENT calls carry no per-step
outputs. -/
theorem test_task_step_results_value_tasks_none_witness :
    (execCalls (dispatchTask exAllOk (.test 1 ⟨10, 20, 30, 40, 50⟩))).map ExecCall.cache = [none]
      ∧ (execCalls (dispatchTask exAllOk (.test 1 ⟨10, 20, 30, 40, 50⟩))).map
          ExecCall.stepResults = [some 50]
      ∧ (execCalls (dispatchTask exAllOk (.value 2 ⟨11, some 6, 21, 31, 41⟩))).map
          ExecCall.stepResults = [none]
      ∧ (execCalls (dispatchTask exAllOk (.valueSeq 3 ⟨12, some 7, 22, 32, 42⟩))).map
          ExecCall.stepResults = [none]
      ∧ (execCalls (dispatchTask exAllOk
            (.dependent 4 (.value 5 ⟨13, none, 23, 33, 43⟩) none))).map
          ExecCall.stepResults = [none] :=
  test_task_step_results_value_tasks_none exAllOk 1 ⟨10, 20, 30, 40, 50⟩ 2 ⟨11, some 6, 21, 31, 41⟩
    3 ⟨12, some 7, 22, 32, 42⟩ 4 (.value 5 ⟨13, none, 23, 33, 43⟩) none ⟨13, none, 23, 33, 43⟩ rfl

/-- **C2.** When a worker pops a SEQUENCE task it executes only the head
sub-task of the sequence's internal queue — the dispatch coincides with
dispatching the head directly and ignores the remaining sub-tasks — and
push_finished then receives the SEQUENCE task itself, never the sub-task. -/
theorem sequence_task_executes_head_returns_itself (id : Nat) (ex : ExecCall → ExecOutcome)
    (i : Nat) (s : PpTask) (rest rest' : List PpTask) (hs : seqDispatchable s = true) :
    (pp_worker_process_task id ex (.sequence i (s :: rest))).filter isPushFinished
        = [.pushFinished (.sequence i (s :: rest))]
      ∧ WEvent.pushFinished s ∉ pp_worker_process_task id ex (.sequence i (s :: rest))
      ∧ dispatchTask ex (.sequence i (s :: rest)) = dispatchTask ex (.sequence i (s :: rest'))
      ∧ dispatchTask ex (.sequence i (s :: rest)) = dispatchTask ex s := by
  have hneq : s ≠ PpTask.sequence i (s :: rest) := by
    intro heq
    have h1 : sizeOf s < sizeOf (s :: rest) := by
      simp
      omega
    have h2 : sizeOf (s :: rest) < sizeOf (PpTask.sequence i (s :: rest)) := by
      simp
    have hsz : sizeOf s < sizeOf (PpTask.sequence i (s :: rest)) := Nat.lt_trans h1 h2
    rw [← heq] at hsz
    exact Nat.lt_irrefl _ hsz
  refine ⟨process_task_filter_isPushFinished id ex _, ?_, ?_, ?_⟩
  · intro hmem
    simp [pp_worker_process_task] at hmem
    rcases hmem with hmem | hmem
    · have := dispatchTask_all_dispatchEvents ex _ _ hmem
      simp [isDispatchEvent] at this
    · exact hneq hmem
  · cases s <;> simp_all [dispatchTask, pp_task_process_sequence, seqDispatchable]
  · cases s <;> simp_all [dispatchTask, pp_task_process_sequence, seqDispatchable]

/-- Witness for C2: a sequence for item 9 headed by a VALUE_SEQ sub-task;
the worker pushes the sequence task itself to the finished lane, not the
sub-task, and dispatch ignores the second sub-task. -/
theorem sequence_task_executes_head_returns_itself_witness :
    (pp_worker_process_task 3 exAllOk
          (.sequence 9 [.valueSeq 9 ⟨10, some 2, 20, 30, 40⟩, .valueSeq 9 ⟨11, none, 21, 31, 41⟩])).filter
          isPushFinished
        = [.pushFinished
            (.sequence 9 [.valueSeq 9 ⟨10, some 2, 20, 30, 40⟩, .valueSeq 9 ⟨11, none, 21, 31, 41⟩])]
      ∧ WEvent.pushFinished (.valueSeq 9 ⟨10, some 2, 20, 30, 40⟩)
          ∉ pp_worker_process_task 3 exAllOk
              (.sequence 9 [.valueSeq 9 ⟨10, some 2, 20, 30, 40⟩, .valueSeq 9 ⟨11, none, 21, 31, 41⟩])
      ∧ dispatchTask exAllOk
            (.sequence 9 [.valueSeq 9 ⟨10, some 2, 20, 30, 40⟩, .valueSeq 9 ⟨11, none, 21, 31, 41⟩])
          = dispatchTask exAllOk (.sequence 9 [.valueSeq 9 ⟨10, some 2, 20, 30, 40⟩])
      ∧ dispatchTask exAllOk
            (.sequence 9 [.valueSeq 9 ⟨10, some 2, 20, 30, 40⟩, .valueSeq 9 ⟨11, none, 21, 31, 41⟩])
          = dispatchTask exAllOk (.valueSeq 9 ⟨10, some 2, 20, 30, 40⟩) :=
  sequence_task_executes_head_returns_itself 3 exAllOk 9 (.valueSeq 9 ⟨10, some 2, 20, 30, 40⟩)
    [.valueSeq 9 ⟨11, none, 21, 31, 41⟩] [] rfl

/-- **C5 (counterexample).** Processing a SEQUENCE task whose internal
sub-task queue is empty does NOT trigger the should-never-happen assertion:
`zbx_list_peek` fails and `pp_task_process_sequence` silently does nothing,
so the claim that this is a fatal assertion is false at this input. -/
theorem empty_sequence_triggers_no_assertion_cex :
    pp_task_process_sequence exAllOk (PpTask.sequence 42 []) = []
      ∧ (pp_worker_process_task 1 exAllOk (PpTask.sequence 42 [])).filter isAssert = [] := by
  exact ⟨rfl, rfl⟩

/-- **C5 (amended).** Processing a SEQUENCE task whose internal sub-task
queue is empty executes no sub-task and raises no assertion: the peek of the
internal queue fails, the dispatch emits no event at all, and the worker
simply reports busy/idle and returns the sequence task to push_finished. -/
theorem empty_sequence_processing_noop (id : Nat) (ex : ExecCall → ExecOutcome) (i : Nat) :
    pp_task_process_sequence ex (.sequence i []) = []
      ∧ pp_worker_process_task id ex (.sequence i [])
          = [.timekeeper (id - 1) .busy, .timekeeper (id - 1) .idle,
              .pushFinished (.sequence i [])] := by
  exact ⟨rfl, rfl⟩

/-- **C10.** When the head sub-task of a SEQUENCE has a type other than
VALUE, VALUE_SEQ or DEPENDENT, the sub-task is not executed: the
should-never-happen branch is taken, no `pp_execute` call happens (so no
result is produced for the sub-task), and the SEQUENCE task is still the one
returned to push_finished. -/
theorem sequence_bad_head_skipped (id : Nat) (ex : ExecCall → ExecOutcome) (i : Nat)
    (h : PpTask) (rest : List PpTask) (hh : seqDispatchable h = false) :
    pp_task_process_sequence ex (.sequence i (h :: rest)) = [.shouldNeverHappen]
      ∧ execCalls (pp_worker_process_task id ex (.sequence i (h :: rest))) = []
      ∧ (pp_worker_process_task id ex (.sequence i (h :: rest))).filter isPushFinished
          = [.pushFinished (.sequence i (h :: rest))] := by
  have h1 : dispatchTask ex (.sequence i (h :: rest)) = [WEvent.shouldNeverHappen] := by
    cases h <;> simp_all [dispatchTask, pp_task_process_sequence, seqDispatchable]
  refine ⟨?_, ?_, process_task_filter_isPushFinished id ex _⟩
  · simpa [dispatchTask] using h1
  · simp [pp_worker_process_task, h1, execCalls]

/-- Witness for C10: a sequence for item 6 whose head is (wrongly) a TEST
task; the assertion branch fires, no execution call is made, and the
sequence task is still pushed finished. -/
theorem sequence_bad_head_skipped_witness :
    pp_task_process_sequence exAllOk (.sequence 6 [.test 1 ⟨10, 20, 30, 40, 50⟩])
        = [.shouldNeverHappen]
      ∧ execCalls (pp_worker_process_task 2 exAllOk (.sequence 6 [.test 1 ⟨10, 20, 30, 40, 50⟩]))
          = []
      ∧ (pp_worker_process_task 2 exAllOk
            (.sequence 6 [.test 1 ⟨10, 20, 30, 40, 50⟩])).filter isPushFinished
          = [.pushFinished (.sequence 6 [.test 1 ⟨10, 20, 30, 40, 50⟩])] :=
  sequence_bad_head_skipped 2 exAllOk 6 (.test 1 ⟨10, 20, 30, 40, 50⟩) [] rfl

lemma pp_worker_loop_filter_isPushFinished (id : Nat) (ex : ExecCall → ExecOutcome)
    (steps : List QueueStep) :
    (pp_worker_loop id ex steps).filter isPushFinished
      = (poppedTasks steps).map WEvent.pushFinished := by
  induction steps with
  | nil => rfl
  | cons st rest ih =>
      cases st with
      | popTask t =>
          simp [pp_worker_loop, poppedTasks, List.filter_append,
            process_task_filter_isPushFinished, ih]
      | waitOk => simp [pp_worker_loop, poppedTasks, ih]
      | waitFail msg => simp [pp_worker_loop, poppedTasks, isPushFinished]

lemma pp_worker_loop_append_no_fail (id : Nat) (ex : ExecCall → ExecOutcome)
    (s1 rest : List QueueStep) (h : ∀ m, QueueStep.waitFail m ∉ s1) :
    pp_worker_loop id ex (s1 ++ rest)
      = pp_worker_loop id ex s1 ++ pp_worker_loop id ex rest := by
  induction s1 with
  | nil => simp [pp_worker_loop]
  | cons st s ih =>
      have h' : ∀ m, QueueStep.waitFail m ∉ s := fun m hm => h m (List.mem_cons_of_mem _ hm)
      cases st with
      | popTask t => simp [pp_worker_loop, ih h']
      | waitOk => simp [pp_worker_loop, ih h']
      | waitFail msg => exact absurd (List.mem_cons_self _ _) (h msg)

/-- **C4.** Every task a worker pops is handed to push_finished exactly once,
in its own loop iteration, and this holds for every execution oracle `ex` —
in particular when every pipeline run fails: a step failure is data in the
result, never a reason to drop or retry the task.  The finished pushes of a
whole worker run are exactly the popped tasks, in order. -/
theorem every_popped_task_pushed_finished_once (id : Nat) (ex : ExecCall → ExecOutcome)
    (steps : List QueueStep) :
    (pp_worker_entry id ex steps).filter isPushFinished
        = (poppedTasks steps).map WEvent.pushFinished
      ∧ ∀ t : PpTask,
          (pp_worker_process_task id ex t).filter isPushFinished = [.pushFinished t] := by
  constructor
  · simp [pp_worker_entry, List.filter_append, pp_worker_loop_filter_isPushFinished,
      isPushFinished]
  · exact fun t => process_task_filter_isPushFinished id ex t

/-- **C6.** When the queue wait fails, only this worker stops: it logs the
warning, frees the error message, sets its own stop flag, deregisters and
exits its loop.  The rest of the schedule is never consumed and no event
after the failure is a push of a task result. -/
theorem wait_failure_stops_only_this_worker (id : Nat) (ex : ExecCall → ExecOutcome)
    (s1 : List QueueStep) (msg : String) (s2 : List QueueStep)
    (h : ∀ m, QueueStep.waitFail m ∉ s1) :
    pp_worker_entry id ex (s1 ++ QueueStep.waitFail msg :: s2)
        = pp_worker_loop id ex s1
            ++ [.logWarning id msg, .freeError, .setStopFlag, .deregisterWorker]
      ∧ (pp_worker_entry id ex (s1 ++ QueueStep.waitFail msg :: s2)).filter isPushFinished
          = (pp_worker_loop id ex s1).filter isPushFinished := by
  have h1 := pp_worker_loop_append_no_fail id ex s1 (QueueStep.waitFail msg :: s2) h
  constructor
  · simp [pp_worker_entry, h1, pp_worker_loop]
  · simp [pp_worker_entry, h1, pp_worker_loop, List.filter_append, isPushFinished]

/-- Witness for C6: worker 2 pops one VALUE task, waits once, then the wait
fails; the trace is the processed task followed by the warning log, the
free, the stop flag and the deregistration — the task scheduled after the
failure is never touched. -/
theorem wait_failure_stops_only_this_worker_witness :
    pp_worker_entry 2 exAllFail
        ([QueueStep.popTask (.value 7 ⟨1, none, 2, 3, 4⟩), QueueStep.waitOk]
          ++ QueueStep.waitFail "cv error" :: [QueueStep.popTask (.value 8 ⟨5, none, 6, 7, 8⟩)])
        = pp_worker_loop 2 exAllFail
            [QueueStep.popTask (.value 7 ⟨1, none, 2, 3, 4⟩), QueueStep.waitOk]
            ++ [.logWarning 2 "cv error", .freeError, .setStopFlag, .deregisterWorker] :=
  (wait_failure_stops_only_this_worker 2 exAllFail
    [QueueStep.popTask (.value 7 ⟨1, none, 2, 3, 4⟩), QueueStep.waitOk] "cv error"
    [QueueStep.popTask (.value 8 ⟨5, none, 6, 7, 8⟩)]
    (by intro m hm; simp at hm)).1

/-- **C8.** For every task a worker executes, the iteration trace is a busy
transition on timekeeper slot `id - 1`, then the dispatch events (which
contain no timekeeper updates and no finished pushes), then an idle
transition on slot `id - 1`, and only then the push_finished of the task. -/
theorem timekeeper_busy_idle_brackets_execution (id : Nat) (ex : ExecCall → ExecOutcome)
    (t : PpTask) :
    ∃ execEvents : List WEvent,
      pp_worker_process_task id ex t
          = .timekeeper (id - 1) .busy
              :: (execEvents ++ [.timekeeper (id - 1) .idle, .pushFinished t])
        ∧ execEvents.filter isTimekeeper = []
        ∧ execEvents.filter isPushFinished = [] :=
  ⟨dispatchTask ex t, rfl, dispatchTask_filter_isTimekeeper ex t,
    dispatchTask_filter_isPushFinished ex t⟩

/-- **C9.** `pp_worker_init` returns 0 exactly when `pthread_create`
succeeds; on failure it returns the nonzero pthread error code itself (never
the generic `FAIL` value), sets `*error` to a diagnostic message built from
`zbx_strerror`, and invokes `pp_worker_stop` to request the worker's stop. -/
theorem worker_init_returns_pthread_code (w : PpWorker) (id : Nat) (queue : Nat)
    (timekeeper : Nat) (strerror : Nat → String) (createErr : Nat) (h : createErr ≠ 0) :
    (pp_worker_init w id queue timekeeper 0 strerror).ret = 0
      ∧ (pp_worker_init w id queue timekeeper 0 strerror).error = none
      ∧ (pp_worker_init w id queue timekeeper 0 strerror).stopCalled = false
      ∧ (pp_worker_init w id queue timekeeper createErr strerror).ret = (createErr : Int)
      ∧ (pp_worker_init w id queue timekeeper createErr strerror).ret ≠ FAIL
      ∧ (pp_worker_init w id queue timekeeper createErr strerror).error
          = some ("cannot create thread: " ++ strerror createErr)
      ∧ (pp_worker_init w id queue timekeeper createErr strerror).stopCalled = true
      ∧ ∀ e : Nat, ((pp_worker_init w id queue timekeeper e strerror).ret = 0 ↔ e = 0) := by
  refine ⟨?_, ?_, ?_, ?_, ?_, ?_, ?_, ?_⟩
  · simp [pp_worker_init]
  · simp [pp_worker_init]
  · simp [pp_worker_init]
  · simp [pp_worker_init, h]
  · simp [pp_worker_init, h, FAIL]
  · simp [pp_worker_init, h]
  · simp [pp_worker_init, h]
  · intro e
    by_cases he : e = 0 <;> simp [pp_worker_init, he]

/-- Witness for C9 at `pthread_create` returning 11 (EAGAIN): the init
returns 11 itself, fills the diagnostic, and requests the stop; with
`pthread_create` returning 0 the init returns 0. -/
theorem worker_init_returns_pthread_code_witness :
    (11 : Nat) ≠ 0
      ∧ (pp_worker_init ⟨0, 0, 0, false, 0⟩ 1 2 3 0
            (fun _ => "Resource temporarily unavailable")).ret = 0
      ∧ (pp_worker_init ⟨0, 0, 0, false, 0⟩ 1 2 3 11
            (fun _ => "Resource temporarily unavailable")).ret = ((11 : Nat) : Int)
      ∧ (pp_worker_init ⟨0, 0, 0, false, 0⟩ 1 2 3 11
            (fun _ => "Resource temporarily unavailable")).error
          = some ("cannot create thread: " ++ "Resource temporarily unavailable")
      ∧ (pp_worker_init ⟨0, 0, 0, false, 0⟩ 1 2 3 11
            (fun _ => "Resource temporarily unavailable")).stopCalled = true :=
  ⟨by decide,
    (worker_init_returns_pthread_code ⟨0, 0, 0, false, 0⟩ 1 2 3
      (fun _ => "Resource temporarily unavailable") 11 (by decide)).1,
    (worker_init_returns_pthread_code ⟨0, 0, 0, false, 0⟩ 1 2 3
      (fun _ => "Resource temporarily unavailable") 11 (by decide)).2.2.2.1,
    (worker_init_returns_pthread_code ⟨0, 0, 0, false, 0⟩ 1 2 3
      (fun _ => "Resource temporarily unavailable") 11 (by decide)).2.2.2.2.2.1,
    (worker_init_returns_pthread_code ⟨0, 0, 0, false, 0⟩ 1 2 3
      (fun _ => "Resource temporarily unavailable") 11 (by decide)).2.2.2.2.2.2.1⟩
